import Mathlib

/-!
Verification development for the `stack-packet` provider repository, where
the reconciler for the `Device` managed resource lives in
`pkg/controller/server/device/managed.go` and the generated deep-copy
functions for the VLAN types live in
`apis/vlan/v1alpha1/zz_generated.deepcopy.go`.

The Go code is embedded shallowly: mutation of the managed resource is
modelled by explicit state passing (each operation returns the device it
would have mutated), the external dependencies (the packngo-backed client,
the Kubernetes client, and the helper functions of `pkg/clients/device`
that are outside the analysed sources) are collected in an `Env` record of
function fields, and Go's nilable `error` values become `Option GoError`.
-/

namespace StackPacket

/-! ## Errors

Go errors are nilable; a present error is a `GoError`.  `github.com/pkg/errors`
wrapping becomes the `wrap` constructor, `errors.New`/`fmt.Errorf` become
`new`, and the provider's 404 response error (the only error recognised by
`packetclient.IsNotFound`, which type-asserts on the raw packngo response)
is the `notFound` constructor. -/
inductive GoError where
  | new (msg : String)
  | wrap (msg : String) (cause : GoError)
  | notFound
deriving DecidableEq, Repr

/-- `errors.Wrap` from `github.com/pkg/errors`: wrapping `nil` yields `nil`,
wrapping a present error records the context message. -/
def errorsWrap (err : Option GoError) (msg : String) : Option GoError :=
  match err with
  | none => none
  | some e => some (GoError.wrap msg e)

/-- `packetclient.IsNotFound`: true exactly for the provider's raw 404
error.  A wrapped not-found error is not recognised (the Go code
type-asserts on the outermost error value). -/
def IsNotFound : Option GoError → Bool
  | some GoError.notFound => true
  | _ => false

/-- `resource.Ignore` from crossplane-runtime: returns `nil` when the
predicate holds of the error, otherwise returns the error unchanged. -/
def resourceIgnore (is : Option GoError → Bool) (err : Option GoError) : Option GoError :=
  if is err then none else err

/-! ## Error strings of package `device` (managed.go, `const` block). -/

def errManagedUpdateFailed : String := "cannot update Device custom resource"
def errTrackPCUsage : String := "cannot track ProviderConfig usage"
def errGetProviderConfigSecret : String := "cannot get ProviderConfig Secret"
def errGenObservation : String := "cannot generate observation"
def errNewClient : String := "cannot create new Device client"
def errNotDevice : String := "managed resource is not a Device"
def errGetDevice : String := "cannot get Device"
def errCreateDevice : String := "cannot create Device"
def errUpdateDevice : String := "cannot modify Device"
def errDeleteDevice : String := "cannot delete Device"

def userdataMapKey : String := "cloud-init"

/-! Function-local error strings of `external.resolveUserDataRefs`. -/

def errGetUserDataRef : String := "cannot get required resource for UserDataRef"
def errInvalidRefKind : String := "invalid resource kind"

/-- Go's `%q` verb as used by `fmt.Sprintf(errRefKeyNotFoundFmt, key)`
(escaping of special characters inside the key is elided; every key the
development evaluates on is plain). -/
def goQuote (s : String) : String := "\"" ++ s ++ "\""

/-- The dynamically formatted message
`fmt.Sprintf("could not find UserDataRef key %q", key)`. -/
def errRefKeyNotFound (key : String) : String :=
  "could not find UserDataRef key " ++ goQuote key

/-! ## Device state constants

Modelled from the spec: the `v1alpha2` state constants
(`StateActive`, `StateProvisioning`, `StateQueued`, `StateDeprovisioning`,
`StateFailed`, `StateInactive`, `StatePoweringOff`, `StateReinstalling`)
are declared in `apis/server/v1alpha2`, which is not among the analysed
sources; they alias the provider API's pairwise distinct device-state
strings. -/

def StateActive : String := "active"
def StateProvisioning : String := "provisioning"
def StateQueued : String := "queued"
def StateDeprovisioning : String := "deprovisioning"
def StateFailed : String := "failed"
def StateInactive : String := "inactive"
def StatePoweringOff : String := "powering_off"
def StateReinstalling : String := "reinstalling"

/-- Modelled from the spec: `packetclient.CredentialProjectID`, a constant
key declared in `pkg/clients` (not among the analysed sources); its exact
value is never inspected by the reconciler, which only passes it to
`GetProjectID`. -/
def CredentialProjectID : String := "projectID"

/-! ## The Device managed resource -/

/-- `v1alpha2.UserDataRef`: exactly the fields read by
`resolveUserDataRefs` (`Name`, `Namespace`, `Kind`, `Key`, `Optional`).
`Namespace` is rendered `nspace` because `namespace` is a Lean keyword. -/
structure UserDataRef where
  name : String
  nspace : String
  kind : String
  key : String
  optional : Bool
deriving DecidableEq, Repr

/-- `v1alpha2.DeviceParameters` (the `Spec.ForProvider` half): the fields
the reconciler reads directly, plus `rest` standing for the remaining
provider parameters (only ever copied or compared as a whole). -/
structure DeviceParameters where
  networkType : Option String
  userData : Option String
  userDataRef : Option UserDataRef
  rest : List (String × String)
deriving DecidableEq, Repr

/-- `v1alpha2.DeviceSpec`. -/
structure DeviceSpec where
  forProvider : DeviceParameters
deriving DecidableEq, Repr

/-- `v1alpha2.DeviceObservation` (the `Status.AtProvider` half): the fields
the reconciler reads or writes directly (`State`, `ID`), plus `rest` for
the remaining observed fields. -/
structure DeviceObservation where
  id : String
  state : String
  rest : List (String × String)
deriving DecidableEq, Repr

/-- The `Ready`-typed conditions produced by crossplane-runtime's
`xpv1.Available()`, `xpv1.Creating()`, `xpv1.Unavailable()` and
`xpv1.Deleting()`.  All four share the condition type `Ready`, so
`SetConditions` with any of them replaces the previous one; the status
therefore carries at most one of them. -/
inductive Condition where
  | available
  | creating
  | unavailable
  | deleting
deriving DecidableEq, Repr

/-- `v1alpha2.DeviceStatus`: the observed state and the current
`Ready`-typed condition (if any has been set). -/
structure DeviceStatus where
  atProvider : DeviceObservation
  ready : Option Condition
deriving DecidableEq, Repr

/-- `v1alpha2.Device`: the external name is the
`crossplane.io/external-name` annotation read by `meta.GetExternalName`
and written by `meta.SetExternalName`. -/
structure Device where
  externalName : String
  spec : DeviceSpec
  status : DeviceStatus
deriving DecidableEq, Repr

/-- `d.Status.SetConditions(c)` for a `Ready`-typed condition `c`:
replaces the stored `Ready` condition. -/
def setReadyCondition (d : Device) (c : Condition) : Device :=
  { d with status.ready := some c }

/-! ## The external world -/

/-- The packngo `Device` returned by the provider client.  The reconciler
reads only its `ID` directly; everything else is consumed by the abstract
helper functions of `Env`, so the remaining payload is kept opaque. -/
structure PackngoDevice where
  ID : String
  payload : List (String × String)
deriving DecidableEq, Repr

/-- `packngo.DeviceCreateRequest` as produced by
`devicesclient.CreateFromDevice`; never inspected by the reconciler. -/
structure DeviceCreateRequest where
  payload : String
deriving DecidableEq, Repr

/-- `packngo.DeviceUpdateRequest` as produced by
`devicesclient.NewUpdateDeviceRequest`; never inspected by the
reconciler. -/
structure DeviceUpdateRequest where
  payload : String
deriving DecidableEq, Repr

/-- `types.NamespacedName`. -/
structure NamespacedName where
  name : String
  nspace : String
deriving DecidableEq, Repr

/-- `managed.ConnectionDetails` (a string map). -/
def ConnDetails := List (String × String)
deriving DecidableEq, Repr

/-- An external call made by the reconciler, recorded so that claims of
the form "calls X / does not call Y" can be stated. -/
inductive ClientCall where
  | get (id : String)
  | create (req : DeviceCreateRequest)
  | update (id : String) (req : DeviceUpdateRequest)
  | delete (id : String) (force : Bool)
  | deviceToNetworkType (id : String) (networkType : String)
  | kubeUpdate (d : Device)
  | kubeGetConfigMap (nsn : NamespacedName)
  | kubeGetSecret (nsn : NamespacedName)
deriving DecidableEq, Repr

/-- The reconciler's external dependencies: the `devicesclient`-backed
provider client, the Kubernetes client, and the helper functions of
`pkg/clients/device` (which are outside the analysed sources and hence
kept universally quantified).  Each field returns exactly the results the
Go call sites destructure. -/
structure Env where
  clientGet : String → PackngoDevice × Option GoError
  clientCreate : DeviceCreateRequest → PackngoDevice × Option GoError
  clientUpdate : String → DeviceUpdateRequest → Option GoError
  clientDelete : String → Bool → Option GoError
  deviceToNetworkType : String → String → Option GoError
  clientGetProjectID : String → String
  kubeUpdate : Device → Option GoError
  kubeGetConfigMap : NamespacedName → List (String × String) × Option GoError
  kubeGetSecret : NamespacedName → List (String × String) × Option GoError
  lateInitialize : DeviceParameters → PackngoDevice → DeviceParameters
  generateObservation : PackngoDevice → DeviceObservation × Option GoError
  isUpToDate : Device → PackngoDevice → Bool × Bool
  getConnectionDetails : PackngoDevice → ConnDetails
  createFromDevice : Device → String → DeviceCreateRequest
  newUpdateDeviceRequest : Device → DeviceUpdateRequest
  trackErr : Option GoError
  getAuthInfoErr : Option GoError
  newClientErr : Option GoError

/-! ## Observe -/

/-- `managed.ExternalObservation`. -/
structure ExternalObservation where
  resourceExists : Bool
  resourceUpToDate : Bool
  connectionDetails : ConnDetails
deriving DecidableEq, Repr

/-- The zero value `managed.ExternalObservation{}` returned on error
paths, and (with `ResourceExists: false` spelled out) on the not-found
path. -/
def emptyObservation : ExternalObservation :=
  { resourceExists := false, resourceUpToDate := false, connectionDetails := [] }

/-- Result of `external.Observe`: the (possibly mutated) managed resource,
the observation, and the returned error. -/
structure ObserveResult where
  dev : Device
  obs : ExternalObservation
  err : Option GoError
deriving DecidableEq, Repr

/-- The state-to-condition `switch` of `external.Observe` (managed.go
lines 143–155): `StateActive` maps to `Available`, `StateProvisioning` to
`Creating`, the six degraded states to `Unavailable`, and any other state
leaves the conditions untouched. -/
def setStateConditions (d : Device) : Device :=
  let s := d.status.atProvider.state
  if s = StateActive then setReadyCondition d Condition.available
  else if s = StateProvisioning then setReadyCondition d Condition.creating
  else if s = StateQueued ∨ s = StateDeprovisioning ∨ s = StateFailed ∨
      s = StateInactive ∨ s = StatePoweringOff ∨ s = StateReinstalling then
    setReadyCondition d Condition.unavailable
  else d

/-- `devicesclient.LateInitialize(&d.Spec.ForProvider, device)`: the spec
half after late initialisation. -/
def lateInitDev (env : Env) (d0 : Device) (device : PackngoDevice) : Device :=
  { d0 with spec.forProvider := env.lateInitialize d0.spec.forProvider device }

/-- The drift check of `external.Observe` (managed.go lines 129–135): the
spec is pushed to the API server only when `cmp.Equal` finds it changed by
late initialisation; the resulting error (if any). -/
def kubeDriftErr (env : Env) (d0 : Device) (device : PackngoDevice) : Option GoError :=
  if d0.spec.forProvider = (lateInitDev env d0 device).spec.forProvider then none
  else env.kubeUpdate (lateInitDev env d0 device)

/-- The tail of `external.Observe` once the provider `Get` has succeeded
with `device`: late-initialise the spec, push the drifted spec to the API
server, regenerate the observation, set the state condition, and report
up-to-dateness. -/
def observeFound (env : Env) (d0 : Device) (device : PackngoDevice) : ObserveResult :=
  let d1 := lateInitDev env d0 device
  match kubeDriftErr env d0 device with
  | some e => ⟨d1, emptyObservation, some (GoError.wrap errManagedUpdateFailed e)⟩
  | none =>
    match env.generateObservation device with
    | (obs, some e) =>
        ⟨{ d1 with status.atProvider := obs }, emptyObservation,
          some (GoError.wrap errGenObservation e)⟩
    | (obs, none) =>
        let d3 := setStateConditions { d1 with status.atProvider := obs }
        ⟨d3,
          { resourceExists := true,
            resourceUpToDate := (env.isUpToDate d3 device).1 &&
              (env.isUpToDate d3 device).2,
            connectionDetails := env.getConnectionDetails device },
          none⟩

/-- `external.Observe` (managed.go lines 114–166). -/
def Observe (env : Env) (d : Device) : ObserveResult :=
  match env.clientGet d.externalName with
  | (device, err) =>
    if IsNotFound err then ⟨d, emptyObservation, none⟩
    else
      match err with
      | some e => ⟨d, emptyObservation, some (GoError.wrap errGetDevice e)⟩
      | none => observeFound env d device

/-! ## resolveUserDataRefs -/

/-- Result of `external.resolveUserDataRefs`: the user-data string, the
returned error, and the Kubernetes calls made. -/
structure ResolveResult where
  userdata : String
  err : Option GoError
  calls : List ClientCall
deriving DecidableEq, Repr

/-- `external.resolveUserDataRefs` (managed.go lines 170–214).  The Go
function immediately dereferences `d.Spec.ForProvider.UserDataRef` and
thereafter uses only the referent, so the embedding takes the (non-nil)
referent `ref` directly; `Create` only ever calls it under the guard
`d.Spec.ForProvider.UserDataRef != nil`. -/
def resolveUserDataRefs (env : Env) (ref : UserDataRef) : ResolveResult :=
  let key := if ref.key = "" then userdataMapKey else ref.key
  let nsn : NamespacedName := ⟨ref.name, ref.nspace⟩
  if ref.kind = "ConfigMap" then
    match env.kubeGetConfigMap nsn with
    | (data, kerr) =>
      if kerr.isSome ∧ ¬ref.optional then
        ⟨"", errorsWrap kerr errGetUserDataRef, [ClientCall.kubeGetConfigMap nsn]⟩
      else
        match data.lookup key with
        | some u => ⟨u, none, [ClientCall.kubeGetConfigMap nsn]⟩
        | none =>
          if ¬ref.optional then
            ⟨"", some (GoError.wrap (errRefKeyNotFound key) (GoError.new errGetUserDataRef)),
              [ClientCall.kubeGetConfigMap nsn]⟩
          else ⟨"", none, [ClientCall.kubeGetConfigMap nsn]⟩
  else if ref.kind = "Secret" then
    match env.kubeGetSecret nsn with
    | (data, kerr) =>
      if kerr.isSome ∧ ¬ref.optional then
        ⟨"", errorsWrap kerr errGetUserDataRef, [ClientCall.kubeGetSecret nsn]⟩
      else
        match data.lookup key with
        | some u => ⟨u, none, [ClientCall.kubeGetSecret nsn]⟩
        | none =>
          if ¬ref.optional then
            ⟨"", some (GoError.wrap (errRefKeyNotFound key) (GoError.new errGetUserDataRef)),
              [ClientCall.kubeGetSecret nsn]⟩
          else ⟨"", none, [ClientCall.kubeGetSecret nsn]⟩
  else
    ⟨"", some (GoError.wrap errInvalidRefKind (GoError.new errGetUserDataRef)), []⟩

/-! ## Create -/

/-- Result of `external.Create`: the (possibly mutated) managed resource,
the `managed.ExternalCreation` connection details, the returned error,
and the external calls made. -/
structure CreateResult where
  dev : Device
  connectionDetails : ConnDetails
  err : Option GoError
  calls : List ClientCall
deriving DecidableEq, Repr

/-- The tail of `external.Create` after user-data resolution: build the
request from the (possibly user-data-amended) deep copy `createDev`,
call the provider `Create`, record the new ID as `Status.AtProvider.ID`
and as external name, and push the resource to the API server. -/
def createBody (env : Env) (d1 createDev : Device) (tr : List ClientCall) : CreateResult :=
  let req := env.createFromDevice createDev (env.clientGetProjectID CredentialProjectID)
  match env.clientCreate req with
  | (_, some e) =>
      ⟨d1, [], some (GoError.wrap errCreateDevice e), tr ++ [ClientCall.create req]⟩
  | (device, none) =>
      let d2 : Device :=
        { d1 with
          status.atProvider.id := device.ID
          externalName := device.ID }
      match env.kubeUpdate d2 with
      | some e =>
          ⟨d2, [], some (GoError.wrap errManagedUpdateFailed e),
            tr ++ [ClientCall.create req, ClientCall.kubeUpdate d2]⟩
      | none =>
          ⟨d2, env.getConnectionDetails device, none,
            tr ++ [ClientCall.create req, ClientCall.kubeUpdate d2]⟩

/-- `external.Create` (managed.go lines 216–247): set the `Creating`
condition, take a deep copy of the resource, resolve a user-data
reference (if any) into the copy, and hand the copy to the provider. -/
def Create (env : Env) (d : Device) : CreateResult :=
  let d1 := setReadyCondition d Condition.creating
  let createDev := d1
  match d1.spec.forProvider.userDataRef with
  | some ref =>
    let r := resolveUserDataRefs env ref
    match r.err with
    | some e => ⟨d1, [], some e, r.calls⟩
    | none =>
        createBody env d1
          { createDev with spec.forProvider.userData := some r.userdata } r.calls
  | none => createBody env d1 createDev []

/-! ## Update -/

/-- Result of `external.Update`: the returned error and the external
calls made (`Update` does not mutate the managed resource). -/
structure UpdateResult where
  err : Option GoError
  calls : List ClientCall
deriving DecidableEq, Repr

/-- `external.Update` (managed.go lines 249–273): re-fetch the device;
when the network type is stale and a desired network type is set, convert
the network type and return early; otherwise send an update request. -/
def Update (env : Env) (d : Device) : UpdateResult :=
  match env.clientGet d.externalName with
  | (_, some e) =>
      ⟨some (GoError.wrap errGetDevice e), [ClientCall.get d.externalName]⟩
  | (device, none) =>
      match (env.isUpToDate d device).2, d.spec.forProvider.networkType with
      | false, some nt =>
          ⟨errorsWrap (env.deviceToNetworkType d.externalName nt) errUpdateDevice,
            [ClientCall.get d.externalName, ClientCall.deviceToNetworkType d.externalName nt]⟩
      | _, _ =>
          ⟨errorsWrap (env.clientUpdate d.externalName (env.newUpdateDeviceRequest d))
              errUpdateDevice,
            [ClientCall.get d.externalName,
              ClientCall.update d.externalName (env.newUpdateDeviceRequest d)]⟩

/-! ## Delete -/

/-- Result of `external.Delete`. -/
structure DeleteResult where
  dev : Device
  err : Option GoError
deriving DecidableEq, Repr

/-- `external.Delete` (managed.go lines 275–284): set the `Deleting`
condition, call the provider `Delete`, and ignore not-found errors. -/
def Delete (env : Env) (d : Device) : DeleteResult :=
  let d1 := setReadyCondition d Condition.deleting
  ⟨d1,
    errorsWrap (resourceIgnore IsNotFound (env.clientDelete d1.externalName false))
      errDeleteDevice⟩

/-! ## Connect -/

/-- The `resource.Managed` passed to `connecter.Connect`: either a
`Device` or some other managed resource (for which the type assertion
fails). -/
inductive Managed where
  | device (d : Device)
  | notDevice
deriving Repr

/-- `connecter.Connect` (managed.go lines 86–107), restricted to its
returned error (the constructed external client carries no further
logic): type-assert, track provider-config usage, read the auth secret,
and build the client. -/
def Connect (env : Env) (m : Managed) : Option GoError :=
  match m with
  | Managed.notDevice => some (GoError.new errNotDevice)
  | Managed.device _ =>
    match env.trackErr with
    | some e => some (GoError.wrap errTrackPCUsage e)
    | none =>
      match env.getAuthInfoErr with
      | some e => some (GoError.wrap errGetProviderConfigSecret e)
      | none => errorsWrap env.newClientErr errNewClient

/-! ## VLAN types and their generated deep-copy functions

`apis/vlan/v1alpha1/zz_generated.deepcopy.go`.  Pointers become `Option`,
`nil` slices become `Option` lists, and each `DeepCopyInto` is the
field-by-field rebuild the generated Go performs; `DeepCopy` on a
(nilable) pointer receiver becomes a function on `Option`.  The embedded
upstream types (`metav1.Time`, `metav1.ObjectMeta`, `metav1.ListMeta`,
`metav1.TypeMeta`, crossplane's `ResourceSpec`/`ResourceStatus`) are
external library code; they are modelled with representative value and
pointer fields and the per-field copies their own generated deep-copy
functions perform. -/

/-- `metav1.TypeMeta`, a plain value struct copied by assignment. -/
structure TypeMeta where
  kind : String
  apiVersion : String
deriving DecidableEq, Repr

/-- `metav1.Time` (external): deep-copied by value. -/
structure MetaTime where
  sec : Int
  nsec : Int
deriving DecidableEq, Repr

/-- `(*metav1.Time).DeepCopy`, rebuilding the value. -/
def MetaTime.deepCopy (t : MetaTime) : MetaTime := ⟨t.sec, t.nsec⟩

/-- `metav1.ObjectMeta` (external), with its map fields made explicit as
optional association lists. -/
structure ObjectMeta where
  name : String
  nspace : String
  labels : Option (List (String × String))
  annotations : Option (List (String × String))
deriving DecidableEq, Repr

/-- `metav1.ObjectMeta.DeepCopyInto` (external generated code): value
fields are assigned, non-nil maps are rebuilt entry by entry. -/
def ObjectMeta.deepCopyInto (m : ObjectMeta) : ObjectMeta :=
  { name := m.name
    nspace := m.nspace
    labels :=
      match m.labels with
      | none => none
      | some kvs => some (kvs.map (fun kv => (kv.1, kv.2)))
    annotations :=
      match m.annotations with
      | none => none
      | some kvs => some (kvs.map (fun kv => (kv.1, kv.2))) }

/-- `metav1.ListMeta` (external). -/
structure ListMeta where
  resourceVersion : String
  continueToken : String
  remainingItemCount : Option Int
deriving DecidableEq, Repr

/-- `metav1.ListMeta.DeepCopyInto` (external generated code): the
`*int64` field is reallocated when non-nil. -/
def ListMeta.deepCopyInto (m : ListMeta) : ListMeta :=
  { resourceVersion := m.resourceVersion
    continueToken := m.continueToken
    remainingItemCount :=
      match m.remainingItemCount with
      | none => none
      | some n => some n }

/-- crossplane `xpv1.Reference` (external). -/
structure Reference where
  name : String
deriving DecidableEq, Repr

/-- crossplane `xpv1.SecretReference` (external). -/
structure SecretReference where
  name : String
  nspace : String
deriving DecidableEq, Repr

/-- crossplane `xpv1.ResourceSpec` (external), with its pointer fields
made explicit. -/
structure ResourceSpec where
  writeConnectionSecretToReference : Option SecretReference
  providerConfigReference : Option Reference
  deletionPolicy : String
deriving DecidableEq, Repr

/-- `xpv1.ResourceSpec.DeepCopyInto` (external generated code). -/
def ResourceSpec.deepCopyInto (s : ResourceSpec) : ResourceSpec :=
  { writeConnectionSecretToReference :=
      match s.writeConnectionSecretToReference with
      | none => none
      | some r => some ⟨r.name, r.nspace⟩
    providerConfigReference :=
      match s.providerConfigReference with
      | none => none
      | some r => some ⟨r.name⟩
    deletionPolicy := s.deletionPolicy }

/-- crossplane `xpv1.Condition` as stored in `ResourceStatus` (external). -/
structure XCondition where
  condType : String
  condStatus : String
  reason : String
  message : String
  lastTransitionTime : MetaTime
deriving DecidableEq, Repr

/-- `xpv1.Condition.DeepCopyInto` (external generated code). -/
def XCondition.deepCopyInto (c : XCondition) : XCondition :=
  { condType := c.condType
    condStatus := c.condStatus
    reason := c.reason
    message := c.message
    lastTransitionTime := c.lastTransitionTime.deepCopy }

/-- crossplane `xpv1.ResourceStatus` (external). -/
structure ResourceStatus where
  conditions : Option (List XCondition)
deriving DecidableEq, Repr

/-- `xpv1.ResourceStatus.DeepCopyInto` (external generated code): a
non-nil condition slice is reallocated and deep-copied element-wise. -/
def ResourceStatus.deepCopyInto (s : ResourceStatus) : ResourceStatus :=
  { conditions :=
      match s.conditions with
      | none => none
      | some cs => some (cs.map XCondition.deepCopyInto) }

/-- `v1alpha1.VirtualNetworkParameters`: the `Description *string` pointer
field named by the generated deep-copy, plus a representative value
field. -/
structure VirtualNetworkParameters where
  projectID : String
  description : Option String
deriving DecidableEq, Repr

/-- `VirtualNetworkParameters.DeepCopyInto` (zz_generated.deepcopy.go
lines 106–113): `*out = *in`, then a non-nil `Description` is
reallocated. -/
def VirtualNetworkParameters.deepCopyInto (p : VirtualNetworkParameters) :
    VirtualNetworkParameters :=
  { projectID := p.projectID
    description :=
      match p.description with
      | none => none
      | some s => some s }

/-- `VirtualNetworkParameters.DeepCopy` (lines 116–123). -/
def VirtualNetworkParameters.deepCopy :
    Option VirtualNetworkParameters → Option VirtualNetworkParameters
  | none => none
  | some p => some p.deepCopyInto

/-- `v1alpha1.VirtualNetworkObservation`: the `CreatedAt *metav1.Time`
pointer field named by the generated deep-copy, plus representative value
fields. -/
structure VirtualNetworkObservation where
  id : String
  href : String
  vxlan : Int
  createdAt : Option MetaTime
deriving DecidableEq, Repr

/-- `VirtualNetworkObservation.DeepCopyInto` (lines 87–93): `*out = *in`,
then a non-nil `CreatedAt` is replaced by `(*in).DeepCopy()`. -/
def VirtualNetworkObservation.deepCopyInto (o : VirtualNetworkObservation) :
    VirtualNetworkObservation :=
  { id := o.id
    href := o.href
    vxlan := o.vxlan
    createdAt :=
      match o.createdAt with
      | none => none
      | some t => some t.deepCopy }

/-- `VirtualNetworkObservation.DeepCopy` (lines 96–103). -/
def VirtualNetworkObservation.deepCopy :
    Option VirtualNetworkObservation → Option VirtualNetworkObservation
  | none => none
  | some o => some o.deepCopyInto

/-- `v1alpha1.VirtualNetworkSpec`. -/
structure VirtualNetworkSpec where
  resourceSpec : ResourceSpec
  forProvider : VirtualNetworkParameters
deriving DecidableEq, Repr

/-- `VirtualNetworkSpec.DeepCopyInto` (lines 126–130). -/
def VirtualNetworkSpec.deepCopyInto (s : VirtualNetworkSpec) : VirtualNetworkSpec :=
  { resourceSpec := s.resourceSpec.deepCopyInto
    forProvider := s.forProvider.deepCopyInto }

/-- `VirtualNetworkSpec.DeepCopy` (lines 133–140). -/
def VirtualNetworkSpec.deepCopy : Option VirtualNetworkSpec → Option VirtualNetworkSpec
  | none => none
  | some s => some s.deepCopyInto

/-- `v1alpha1.VirtualNetworkStatus`. -/
structure VirtualNetworkStatus where
  resourceStatus : ResourceStatus
  atProvider : VirtualNetworkObservation
deriving DecidableEq, Repr

/-- `VirtualNetworkStatus.DeepCopyInto` (lines 143–147). -/
def VirtualNetworkStatus.deepCopyInto (s : VirtualNetworkStatus) : VirtualNetworkStatus :=
  { resourceStatus := s.resourceStatus.deepCopyInto
    atProvider := s.atProvider.deepCopyInto }

/-- `VirtualNetworkStatus.DeepCopy` (lines 150–157). -/
def VirtualNetworkStatus.deepCopy :
    Option VirtualNetworkStatus → Option VirtualNetworkStatus
  | none => none
  | some s => some s.deepCopyInto

/-- `v1alpha1.VirtualNetwork`. -/
structure VirtualNetwork where
  typeMeta : TypeMeta
  objectMeta : ObjectMeta
  spec : VirtualNetworkSpec
  status : VirtualNetworkStatus
deriving DecidableEq, Repr

/-- `VirtualNetwork.DeepCopyInto` (lines 28–34). -/
def VirtualNetwork.deepCopyInto (v : VirtualNetwork) : VirtualNetwork :=
  { typeMeta := v.typeMeta
    objectMeta := v.objectMeta.deepCopyInto
    spec := v.spec.deepCopyInto
    status := v.status.deepCopyInto }

/-- `VirtualNetwork.DeepCopy` (lines 37–44). -/
def VirtualNetwork.deepCopy : Option VirtualNetwork → Option VirtualNetwork
  | none => none
  | some v => some v.deepCopyInto

/-- `v1alpha1.VirtualNetworkList`: a nilable slice of items. -/
structure VirtualNetworkList where
  typeMeta : TypeMeta
  listMeta : ListMeta
  items : Option (List VirtualNetwork)
deriving DecidableEq, Repr

/-- `VirtualNetworkList.DeepCopyInto` (lines 55–66): a non-nil `Items`
slice is reallocated and deep-copied element-wise. -/
def VirtualNetworkList.deepCopyInto (l : VirtualNetworkList) : VirtualNetworkList :=
  { typeMeta := l.typeMeta
    listMeta := l.listMeta.deepCopyInto
    items :=
      match l.items with
      | none => none
      | some vs => some (vs.map VirtualNetwork.deepCopyInto) }

/-- `VirtualNetworkList.DeepCopy` (lines 69–76). -/
def VirtualNetworkList.deepCopy : Option VirtualNetworkList → Option VirtualNetworkList
  | none => none
  | some l => some l.deepCopyInto

/-! ## Deep-copy identity lemmas -/

lemma objectMeta_deepCopyInto_eq (m : ObjectMeta) : m.deepCopyInto = m := by
  cases m with
  | mk name nspace labels annotations =>
    cases labels <;> cases annotations <;> simp [ObjectMeta.deepCopyInto]

lemma listMeta_deepCopyInto_eq (m : ListMeta) : m.deepCopyInto = m := by
  cases m with
  | mk rv ct ric => cases ric <;> simp [ListMeta.deepCopyInto]

lemma metaTime_deepCopy_eq (t : MetaTime) : t.deepCopy = t := rfl

lemma resourceSpec_deepCopyInto_eq (s : ResourceSpec) : s.deepCopyInto = s := by
  cases s with
  | mk w p dp => cases w <;> cases p <;> simp [ResourceSpec.deepCopyInto]

lemma xcondition_deepCopyInto_eq (c : XCondition) : c.deepCopyInto = c := by
  cases c; simp [XCondition.deepCopyInto, metaTime_deepCopy_eq]

lemma resourceStatus_deepCopyInto_eq (s : ResourceStatus) : s.deepCopyInto = s := by
  cases s with
  | mk cs =>
    cases cs <;>
      simp [ResourceStatus.deepCopyInto,
        show XCondition.deepCopyInto = id from funext xcondition_deepCopyInto_eq]

lemma vnParameters_deepCopyInto_eq (p : VirtualNetworkParameters) :
    p.deepCopyInto = p := by
  cases p with
  | mk pid desc => cases desc <;> simp [VirtualNetworkParameters.deepCopyInto]

lemma vnObservation_deepCopyInto_eq (o : VirtualNetworkObservation) :
    o.deepCopyInto = o := by
  cases o with
  | mk id href vxlan createdAt =>
    cases createdAt <;>
      simp [VirtualNetworkObservation.deepCopyInto, metaTime_deepCopy_eq]

lemma vnSpec_deepCopyInto_eq (s : VirtualNetworkSpec) : s.deepCopyInto = s := by
  cases s
  simp [VirtualNetworkSpec.deepCopyInto, resourceSpec_deepCopyInto_eq,
    vnParameters_deepCopyInto_eq]

lemma vnStatus_deepCopyInto_eq (s : VirtualNetworkStatus) : s.deepCopyInto = s := by
  cases s
  simp [VirtualNetworkStatus.deepCopyInto, resourceStatus_deepCopyInto_eq,
    vnObservation_deepCopyInto_eq]

lemma virtualNetwork_deepCopyInto_eq (v : VirtualNetwork) : v.deepCopyInto = v := by
  cases v
  simp [VirtualNetwork.deepCopyInto, objectMeta_deepCopyInto_eq,
    vnSpec_deepCopyInto_eq, vnStatus_deepCopyInto_eq]

lemma vnList_deepCopyInto_eq (l : VirtualNetworkList) : l.deepCopyInto = l := by
  cases l with
  | mk tm lm items =>
    cases items <;>
      simp [VirtualNetworkList.deepCopyInto, listMeta_deepCopyInto_eq,
        show VirtualNetwork.deepCopyInto = id from funext virtualNetwork_deepCopyInto_eq]

/-- C7: For every VirtualNetwork value, DeepCopy applied to a nil receiver
returns nil, and applied to a non-nil receiver returns a new value that is
structurally equal to the receiver; the same holds for VirtualNetworkList,
VirtualNetworkObservation, VirtualNetworkParameters, VirtualNetworkSpec,
and VirtualNetworkStatus. -/
theorem vlan_deepcopy_id :
    (VirtualNetwork.deepCopy none = none ∧
      ∀ v : VirtualNetwork, VirtualNetwork.deepCopy (some v) = some v) ∧
    (VirtualNetworkList.deepCopy none = none ∧
      ∀ l : VirtualNetworkList, VirtualNetworkList.deepCopy (some l) = some l) ∧
    (VirtualNetworkObservation.deepCopy none = none ∧
      ∀ o : VirtualNetworkObservation, VirtualNetworkObservation.deepCopy (some o) = some o) ∧
    (VirtualNetworkParameters.deepCopy none = none ∧
      ∀ p : VirtualNetworkParameters, VirtualNetworkParameters.deepCopy (some p) = some p) ∧
    (VirtualNetworkSpec.deepCopy none = none ∧
      ∀ s : VirtualNetworkSpec, VirtualNetworkSpec.deepCopy (some s) = some s) ∧
    (VirtualNetworkStatus.deepCopy none = none ∧
      ∀ s : VirtualNetworkStatus, VirtualNetworkStatus.deepCopy (some s) = some s) :=
  ⟨⟨rfl, fun v => by simp [VirtualNetwork.deepCopy, virtualNetwork_deepCopyInto_eq]⟩,
    ⟨rfl, fun l => by simp [VirtualNetworkList.deepCopy, vnList_deepCopyInto_eq]⟩,
    ⟨rfl, fun o => by simp [VirtualNetworkObservation.deepCopy, vnObservation_deepCopyInto_eq]⟩,
    ⟨rfl, fun p => by simp [VirtualNetworkParameters.deepCopy, vnParameters_deepCopyInto_eq]⟩,
    ⟨rfl, fun s => by simp [VirtualNetworkSpec.deepCopy, vnSpec_deepCopyInto_eq]⟩,
    ⟨rfl, fun s => by simp [VirtualNetworkStatus.deepCopy, vnStatus_deepCopyInto_eq]⟩⟩

/-! ## Observe lemmas -/

lemma setStateConditions_state (d : Device) :
    (setStateConditions d).status.atProvider.state = d.status.atProvider.state := by
  simp only [setStateConditions, setReadyCondition]
  split
  · rfl
  · split
    · rfl
    · split <;> rfl

lemma setStateConditions_active (d : Device)
    (h : d.status.atProvider.state = StateActive) :
    (setStateConditions d).status.ready = some Condition.available := by
  simp [setStateConditions, setReadyCondition, h]

lemma setStateConditions_provisioning (d : Device)
    (h : d.status.atProvider.state = StateProvisioning) :
    (setStateConditions d).status.ready = some Condition.creating := by
  simp [setStateConditions, setReadyCondition, h, StateProvisioning, StateActive]

lemma setStateConditions_unavailable (d : Device)
    (h : d.status.atProvider.state = StateQueued ∨
      d.status.atProvider.state = StateDeprovisioning ∨
      d.status.atProvider.state = StateFailed ∨
      d.status.atProvider.state = StateInactive ∨
      d.status.atProvider.state = StatePoweringOff ∨
      d.status.atProvider.state = StateReinstalling) :
    (setStateConditions d).status.ready = some Condition.unavailable := by
  rcases h with h | h | h | h | h | h <;>
    simp [setStateConditions, setReadyCondition, h, StateActive, StateProvisioning,
      StateQueued, StateDeprovisioning, StateFailed, StateInactive,
      StatePoweringOff, StateReinstalling]

/-- On the fully successful path `observeFound` returns the
condition-annotated device together with `ResourceExists: true` and the
conjunction of the two `IsUpToDate` flags, and on every other path it
returns an error. -/
lemma observeFound_cases (env : Env) (d0 : Device) (device : PackngoDevice) :
    (∃ e, (observeFound env d0 device).err = some e) ∨
    (∃ d2, observeFound env d0 device =
      ⟨setStateConditions d2,
        { resourceExists := true,
          resourceUpToDate := (env.isUpToDate (setStateConditions d2) device).1 &&
            (env.isUpToDate (setStateConditions d2) device).2,
          connectionDetails := env.getConnectionDetails device }, none⟩) := by
  rcases hk : kubeDriftErr env d0 device with _ | e
  · rcases hb : env.generateObservation device with ⟨obs, oerr⟩
    cases oerr with
    | some e =>
        exact Or.inl ⟨GoError.wrap errGenObservation e, by simp only [observeFound, hk, hb]⟩
    | none =>
      refine Or.inr ⟨{ lateInitDev env d0 device with status.atProvider := obs }, ?_⟩
      simp only [observeFound, hk, hb]
  · exact Or.inl ⟨GoError.wrap errManagedUpdateFailed e, by simp only [observeFound, hk]⟩

lemma observe_err_some_of_getErr (env : Env) (d : Device) (e : GoError)
    (hg : (env.clientGet d.externalName).2 = some e) (hne : e ≠ GoError.notFound) :
    Observe env d =
      ⟨d, emptyObservation, some (GoError.wrap errGetDevice e)⟩ := by
  unfold Observe
  rcases hp : env.clientGet d.externalName with ⟨device, err⟩
  rw [hp] at hg
  simp only at hg
  subst hg
  have : IsNotFound (some e) = false := by
    cases e <;> simp_all [IsNotFound]
  simp [this]

lemma observe_found_eq (env : Env) (d : Device)
    (hg : (env.clientGet d.externalName).2 = none) :
    Observe env d = observeFound env d (env.clientGet d.externalName).1 := by
  unfold Observe
  rcases hp : env.clientGet d.externalName with ⟨device, err⟩
  rw [hp] at hg
  simp only at hg
  subst hg
  simp [IsNotFound, hp]

lemma observe_notFound_eq (env : Env) (d : Device)
    (hg : IsNotFound (env.clientGet d.externalName).2 = true) :
    Observe env d = ⟨d, emptyObservation, none⟩ := by
  unfold Observe
  rcases hp : env.clientGet d.externalName with ⟨device, err⟩
  rw [hp] at hg
  simp only at hg
  simp [hg]

/-- C1: For every Device successfully fetched by Observe, the condition set
on the Device's status is determined by the observed state: `StateActive`
sets the `Available` condition, `StateProvisioning` sets the `Creating`
condition, and each of `StateQueued`, `StateDeprovisioning`, `StateFailed`,
`StateInactive`, `StatePoweringOff`, `StateReinstalling` sets the
`Unavailable` condition. -/
theorem observe_state_to_condition (env : Env) (d : Device)
    (herr : (Observe env d).err = none)
    (hex : (Observe env d).obs.resourceExists = true) :
    ((Observe env d).dev.status.atProvider.state = StateActive →
      (Observe env d).dev.status.ready = some Condition.available) ∧
    ((Observe env d).dev.status.atProvider.state = StateProvisioning →
      (Observe env d).dev.status.ready = some Condition.creating) ∧
    (∀ s, (s = StateQueued ∨ s = StateDeprovisioning ∨ s = StateFailed ∨
        s = StateInactive ∨ s = StatePoweringOff ∨ s = StateReinstalling) →
      (Observe env d).dev.status.atProvider.state = s →
      (Observe env d).dev.status.ready = some Condition.unavailable) := by
  have hdev : ∃ d2, (Observe env d).dev = setStateConditions d2 := by
    rcases hg : (env.clientGet d.externalName).2 with _ | e
    · rcases observeFound_cases env d (env.clientGet d.externalName).1 with ⟨e, he⟩ | ⟨d2, hr⟩
      · rw [observe_found_eq env d hg, he] at herr
        exact absurd herr (by simp)
      · rw [observe_found_eq env d hg, hr]
        exact ⟨d2, rfl⟩
    · by_cases hnf : e = GoError.notFound
      · subst hnf
        rw [observe_notFound_eq env d (by rw [hg]; rfl)] at hex
        exact absurd hex (by simp [emptyObservation])
      · rw [observe_err_some_of_getErr env d e hg hnf] at herr
        exact absurd herr (by simp)
  rcases hdev with ⟨d2, hdev⟩
  rw [hdev]
  refine ⟨?_, ?_, ?_⟩
  · intro h
    rw [setStateConditions_state] at h
    exact setStateConditions_active d2 h
  · intro h
    rw [setStateConditions_state] at h
    exact setStateConditions_provisioning d2 h
  · intro s hs h
    rw [setStateConditions_state] at h
    subst h
    exact setStateConditions_unavailable d2 (by tauto)

/-! ## Concrete environments and devices for witnesses and counterexamples -/

/-- A benign environment: every external call succeeds, the fetched device
is `dev-1` in state `active`, late initialisation changes nothing, and the
device is fully up to date. -/
def baseEnv : Env where
  clientGet := fun _ => (⟨"dev-1", []⟩, none)
  clientCreate := fun _ => (⟨"dev-1", []⟩, none)
  clientUpdate := fun _ _ => none
  clientDelete := fun _ _ => none
  deviceToNetworkType := fun _ _ => none
  clientGetProjectID := fun _ => "proj-1"
  kubeUpdate := fun _ => none
  kubeGetConfigMap := fun _ => ([], none)
  kubeGetSecret := fun _ => ([], none)
  lateInitialize := fun p _ => p
  generateObservation := fun dev => (⟨dev.ID, "active", []⟩, none)
  isUpToDate := fun _ _ => (true, true)
  getConnectionDetails := fun _ => []
  createFromDevice := fun _ _ => ⟨"create-req"⟩
  newUpdateDeviceRequest := fun _ => ⟨"update-req"⟩
  trackErr := none
  getAuthInfoErr := none
  newClientErr := none

/-- A plain Device custom resource with external name `dev-1` and no
user-data reference. -/
def dev0 : Device :=
  ⟨"dev-1", ⟨⟨none, none, none, []⟩⟩, ⟨⟨"", "", []⟩, none⟩⟩

/-- C1 witness: in the benign environment the fetched device is `active`,
so Observe leaves the resource with the `Available` condition. -/
theorem observe_state_to_condition_witness :
    (Observe baseEnv dev0).dev.status.ready = some Condition.available :=
  (observe_state_to_condition baseEnv dev0 (by decide) (by decide)).1 (by decide)

/-- An environment in which the provider `Get` succeeds but late
initialisation drifts the spec and the API-server update fails. -/
def envObserveDrift : Env :=
  { baseEnv with
    lateInitialize := fun p _ => { p with userData := some "late-init" }
    kubeUpdate := fun _ => some (GoError.new "api server unavailable") }

/-- C2 counterexample: the provider `Get` succeeds, yet Observe returns
`ResourceExists: false` together with a non-nil error, because the
drifted-spec update to the API server failed. -/
theorem observe_exists_counterexample :
    (envObserveDrift.clientGet dev0.externalName).2 = none ∧
    (Observe envObserveDrift dev0).obs.resourceExists = false ∧
    (Observe envObserveDrift dev0).err ≠ none := by decide

/-- C2 amended: when the provider `Get` reports not-found, Observe returns
`ResourceExists: false` with a nil error; when `Get` succeeds and Observe
itself returns a nil error, the observation has `ResourceExists: true` and
`ResourceUpToDate` equal to the conjunction of the two `IsUpToDate` flags
(computed on the updated Device and the fetched device). -/
theorem observe_exists_amended (env : Env) (d : Device) :
    (IsNotFound (env.clientGet d.externalName).2 = true →
      (Observe env d).obs.resourceExists = false ∧ (Observe env d).err = none) ∧
    ((env.clientGet d.externalName).2 = none → (Observe env d).err = none →
      (Observe env d).obs.resourceExists = true ∧
      (Observe env d).obs.resourceUpToDate =
        ((env.isUpToDate (Observe env d).dev (env.clientGet d.externalName).1).1 &&
          (env.isUpToDate (Observe env d).dev (env.clientGet d.externalName).1).2)) := by
  constructor
  · intro h
    rw [observe_notFound_eq env d h]
    exact ⟨rfl, rfl⟩
  · intro hg herr
    rw [observe_found_eq env d hg] at herr ⊢
    rcases observeFound_cases env d (env.clientGet d.externalName).1 with ⟨e, he⟩ | ⟨d2, hr⟩
    · rw [he] at herr
      exact absurd herr (by simp)
    · rw [hr]
      exact ⟨rfl, rfl⟩

/-- An environment whose provider `Get` reports not-found. -/
def envNotFound : Env :=
  { baseEnv with clientGet := fun _ => (⟨"", []⟩, some GoError.notFound) }

/-- C2 amended witness: both halves of the amended claim evaluated on
concrete environments. -/
theorem observe_exists_amended_witness :
    ((Observe envNotFound dev0).obs.resourceExists = false ∧
      (Observe envNotFound dev0).err = none) ∧
    ((Observe baseEnv dev0).obs.resourceExists = true ∧
      (Observe baseEnv dev0).obs.resourceUpToDate =
        ((baseEnv.isUpToDate (Observe baseEnv dev0).dev
            (baseEnv.clientGet dev0.externalName).1).1 &&
          (baseEnv.isUpToDate (Observe baseEnv dev0).dev
            (baseEnv.clientGet dev0.externalName).1).2)) :=
  ⟨(observe_exists_amended envNotFound dev0).1 (by decide),
    (observe_exists_amended baseEnv dev0).2 (by decide) (by decide)⟩

/-! ## Update claims -/

/-- An environment whose provider `Get` fails with a generic error. -/
def envGetFail : Env :=
  { baseEnv with clientGet := fun _ => (⟨"", []⟩, some (GoError.new "get failed")) }

/-- C3 counterexample: `dev0` has no desired network type, so it falls in
the claim's "every other case", yet when the internal `Get` fails Update
returns without ever calling the client's `Update`. -/
theorem update_branch_counterexample :
    dev0.spec.forProvider.networkType = none ∧
    ClientCall.update dev0.externalName (envGetFail.newUpdateDeviceRequest dev0) ∉
      (Update envGetFail dev0).calls := by decide

/-- C3 amended: provided the internal `Get` succeeds, a Device whose
observed device is not network-type up to date and whose desired
`NetworkType` is non-nil makes Update call only `DeviceToNetworkType`
(besides the `Get`) and return without calling the client's `Update`; in
every other such case Update calls the client's `Update` with the request
built by `NewUpdateDeviceRequest`.  When the internal `Get` fails, Update
returns the wrapped error having called neither. -/
theorem update_branch_amended (env : Env) (d : Device) :
    ((env.clientGet d.externalName).2 = none →
      (∀ nt, (env.isUpToDate d (env.clientGet d.externalName).1).2 = false →
        d.spec.forProvider.networkType = some nt →
        Update env d =
          ⟨errorsWrap (env.deviceToNetworkType d.externalName nt) errUpdateDevice,
            [ClientCall.get d.externalName,
              ClientCall.deviceToNetworkType d.externalName nt]⟩) ∧
      (((env.isUpToDate d (env.clientGet d.externalName).1).2 = true ∨
          d.spec.forProvider.networkType = none) →
        Update env d =
          ⟨errorsWrap (env.clientUpdate d.externalName (env.newUpdateDeviceRequest d))
              errUpdateDevice,
            [ClientCall.get d.externalName,
              ClientCall.update d.externalName (env.newUpdateDeviceRequest d)]⟩)) ∧
    (∀ e, (env.clientGet d.externalName).2 = some e →
      Update env d =
        ⟨some (GoError.wrap errGetDevice e), [ClientCall.get d.externalName]⟩) := by
  rcases hp : env.clientGet d.externalName with ⟨device, err⟩
  cases err with
  | some e =>
    constructor
    · intro hg
      exact absurd (show (some e : Option GoError) = none from hg) (by simp)
    · intro e0 he0
      have he0' : (some e : Option GoError) = some e0 := he0
      simp only [Option.some.injEq] at he0'
      subst he0'
      simp only [Update, hp]
  | none =>
    constructor
    · intro _
      constructor
      · intro nt hn hnt
        have hn' : (env.isUpToDate d device).2 = false := hn
        simp only [Update, hp, hn', hnt]
      · intro hcase
        rcases hcase with hn | hnt
        · have hn' : (env.isUpToDate d device).2 = true := hn
          rcases hnt2 : d.spec.forProvider.networkType with _ | nt2 <;>
            simp only [Update, hp, hn', hnt2]
        · cases hn2 : (env.isUpToDate d device).2 <;>
            simp only [Update, hp, hn2, hnt]
    · intro e0 he0
      exact absurd (show (none : Option GoError) = some e0 from he0) (by simp)

/-- A Device that desires the `layer2` network type. -/
def devNT : Device :=
  ⟨"dev-1", ⟨⟨some "layer2", none, none, []⟩⟩, ⟨⟨"", "", []⟩, none⟩⟩

/-- An environment reporting the device as not network-type up to date. -/
def envStaleNT : Env :=
  { baseEnv with isUpToDate := fun _ _ => (true, false) }

/-- C3 amended witness: all three branches evaluated on concrete
environments. -/
theorem update_branch_amended_witness :
    (Update envStaleNT devNT =
      ⟨errorsWrap (envStaleNT.deviceToNetworkType devNT.externalName "layer2")
          errUpdateDevice,
        [ClientCall.get devNT.externalName,
          ClientCall.deviceToNetworkType devNT.externalName "layer2"]⟩) ∧
    (Update baseEnv dev0 =
      ⟨errorsWrap (baseEnv.clientUpdate dev0.externalName
            (baseEnv.newUpdateDeviceRequest dev0)) errUpdateDevice,
        [ClientCall.get dev0.externalName,
          ClientCall.update dev0.externalName (baseEnv.newUpdateDeviceRequest dev0)]⟩) ∧
    (Update envGetFail dev0 =
      ⟨some (GoError.wrap errGetDevice (GoError.new "get failed")),
        [ClientCall.get dev0.externalName]⟩) :=
  ⟨((update_branch_amended envStaleNT devNT).1 (by decide)).1 "layer2" (by decide) (by decide),
    ((update_branch_amended baseEnv dev0).1 (by decide)).2 (Or.inr (by decide)),
    (update_branch_amended envGetFail dev0).2 (GoError.new "get failed") (by decide)⟩

/-! ## resolveUserDataRefs / Create claims -/

/-- C4: For every Device with a non-nil UserDataRef whose Kind is neither
`ConfigMap` nor `Secret`, `resolveUserDataRefs` returns an error wrapped
with `invalid resource kind` regardless of whether the reference is marked
Optional, and consequently Create returns that error. -/
theorem resolve_invalid_kind (env : Env) (ref : UserDataRef) (d : Device)
    (hk1 : ref.kind ≠ "ConfigMap") (hk2 : ref.kind ≠ "Secret")
    (hd : d.spec.forProvider.userDataRef = some ref) :
    (resolveUserDataRefs env ref).err =
      some (GoError.wrap errInvalidRefKind (GoError.new errGetUserDataRef)) ∧
    (Create env d).err =
      some (GoError.wrap errInvalidRefKind (GoError.new errGetUserDataRef)) := by
  have hres : resolveUserDataRefs env ref =
      ⟨"", some (GoError.wrap errInvalidRefKind (GoError.new errGetUserDataRef)), []⟩ := by
    simp only [resolveUserDataRefs, if_neg hk1, if_neg hk2]
  refine ⟨by rw [hres], ?_⟩
  simp only [Create, setReadyCondition, hd, hres]

/-- A user-data reference of an unsupported kind. -/
def refWrong : UserDataRef := ⟨"my-userdata", "default", "Wrong", "", false⟩

/-- A Device referring to `refWrong` for its user-data. -/
def devBadRef : Device :=
  ⟨"dev-1", ⟨⟨none, none, some refWrong, []⟩⟩, ⟨⟨"", "", []⟩, none⟩⟩

/-- C4 witness: concrete evaluation on a `Wrong`-kinded reference. -/
theorem resolve_invalid_kind_witness :
    (resolveUserDataRefs baseEnv refWrong).err =
      some (GoError.wrap errInvalidRefKind (GoError.new errGetUserDataRef)) ∧
    (Create baseEnv devBadRef).err =
      some (GoError.wrap errInvalidRefKind (GoError.new errGetUserDataRef)) :=
  resolve_invalid_kind baseEnv refWrong devBadRef (by decide) (by decide) (by decide)

/-! ## Delete claim -/

/-- C8: Delete returns a nil error whenever the provider client's Delete
call either succeeds or fails with a not-found error; only errors that are
not not-found are returned, wrapped with `cannot delete Device`. -/
theorem delete_ignores_notfound (env : Env) (d : Device) :
    (env.clientDelete d.externalName false = none → (Delete env d).err = none) ∧
    (env.clientDelete d.externalName false = some GoError.notFound →
      (Delete env d).err = none) ∧
    (∀ e, env.clientDelete d.externalName false = some e →
      IsNotFound (some e) = false →
      (Delete env d).err = some (GoError.wrap errDeleteDevice e)) := by
  refine ⟨fun h => ?_, fun h => ?_, fun e h hnf => ?_⟩
  · simp [Delete, setReadyCondition, resourceIgnore, h, IsNotFound, errorsWrap]
  · simp [Delete, setReadyCondition, resourceIgnore, h, IsNotFound, errorsWrap]
  · simp [Delete, setReadyCondition, resourceIgnore, h, hnf, errorsWrap]

/-- An environment whose provider `Delete` reports not-found. -/
def envDeleteNF : Env :=
  { baseEnv with clientDelete := fun _ _ => some GoError.notFound }

/-- An environment whose provider `Delete` fails with a generic error. -/
def envDeleteFail : Env :=
  { baseEnv with clientDelete := fun _ _ => some (GoError.new "delete failed") }

/-- C8 witness: all three branches evaluated on concrete environments. -/
theorem delete_ignores_notfound_witness :
    (Delete baseEnv dev0).err = none ∧
    (Delete envDeleteNF dev0).err = none ∧
    (Delete envDeleteFail dev0).err =
      some (GoError.wrap errDeleteDevice (GoError.new "delete failed")) :=
  ⟨(delete_ignores_notfound baseEnv dev0).1 (by decide),
    (delete_ignores_notfound envDeleteNF dev0).2.1 (by decide),
    (delete_ignores_notfound envDeleteFail dev0).2.2 (GoError.new "delete failed")
      (by decide) (by decide)⟩

/-! ## Create frame lemmas -/

lemma createBody_dev_spec (env : Env) (d1 cd : Device) (tr : List ClientCall) :
    (createBody env d1 cd tr).dev.spec.forProvider = d1.spec.forProvider := by
  rcases hc : env.clientCreate
      (env.createFromDevice cd (env.clientGetProjectID CredentialProjectID)) with ⟨device, cerr⟩
  cases cerr with
  | some e => simp [createBody, hc]
  | none =>
    simp only [createBody, hc]
    split <;> rfl

lemma createBody_create_mem (env : Env) (d1 cd : Device) (tr : List ClientCall) :
    ClientCall.create (env.createFromDevice cd (env.clientGetProjectID CredentialProjectID)) ∈
      (createBody env d1 cd tr).calls := by
  rcases hc : env.clientCreate
      (env.createFromDevice cd (env.clientGetProjectID CredentialProjectID)) with ⟨device, cerr⟩
  cases cerr with
  | some e => simp [createBody, hc]
  | none =>
    simp only [createBody, hc]
    split <;> simp

lemma create_dev_spec (env : Env) (d : Device) :
    (Create env d).dev.spec.forProvider = d.spec.forProvider := by
  rcases href : d.spec.forProvider.userDataRef with _ | ref
  · simp only [Create, setReadyCondition, href]
    rw [createBody_dev_spec]
  · simp only [Create, setReadyCondition, href]
    rcases hr : (resolveUserDataRefs env ref).err with _ | e
    · simp only [hr]
      rw [createBody_dev_spec]
    · simp only [hr]

/-- What `Create` returns when the user-data resolution fails: the error
verbatim, only the Kubernetes reads of the resolution as calls, and the
resource mutated only by the `Creating` condition. -/
lemma create_err_resolve (env : Env) (d : Device) (ref : UserDataRef) (e : GoError)
    (h : d.spec.forProvider.userDataRef = some ref)
    (he : (resolveUserDataRefs env ref).err = some e) :
    Create env d =
      ⟨setReadyCondition d Condition.creating, [], some e,
        (resolveUserDataRefs env ref).calls⟩ := by
  simp only [Create, setReadyCondition, h, he]

lemma resolve_calls (env : Env) (ref : UserDataRef) :
    (resolveUserDataRefs env ref).calls = [] ∨
    (resolveUserDataRefs env ref).calls =
      [ClientCall.kubeGetConfigMap ⟨ref.name, ref.nspace⟩] ∨
    (resolveUserDataRefs env ref).calls =
      [ClientCall.kubeGetSecret ⟨ref.name, ref.nspace⟩] := by
  by_cases h1 : ref.kind = "ConfigMap"
  · rcases hcm : env.kubeGetConfigMap ⟨ref.name, ref.nspace⟩ with ⟨data, kerr⟩
    simp only [resolveUserDataRefs, h1, if_true, hcm]
    split
    · simp
    · split
      · simp
      · split <;> simp
  · by_cases h2 : ref.kind = "Secret"
    · rcases hcs : env.kubeGetSecret ⟨ref.name, ref.nspace⟩ with ⟨data, kerr⟩
      simp only [resolveUserDataRefs]
      rw [if_neg h1, if_pos h2]
      simp only [hcs]
      split
      · simp
      · split
        · simp
        · split <;> simp
    · simp only [resolveUserDataRefs]
      rw [if_neg h1, if_neg h2]
      simp

lemma resolve_no_create_call (env : Env) (ref : UserDataRef) (req : DeviceCreateRequest) :
    ClientCall.create req ∉ (resolveUserDataRefs env ref).calls := by
  rcases resolve_calls env ref with h | h | h <;> rw [h] <;> simp

/-- C9: For every Device with a non-nil UserDataRef, Create writes the
resolved user-data only into the deep copy used to build the creation
request (the request handed to the provider is built from the copy with
`UserData` replaced by the resolved string); the original Device's
`Spec.ForProvider` — in particular its `UserData` field — is left unchanged
by Create. -/
theorem create_preserves_spec (env : Env) (d : Device)
    (h : d.spec.forProvider.userDataRef ≠ none) :
    (Create env d).dev.spec.forProvider = d.spec.forProvider ∧
    (∀ ref, d.spec.forProvider.userDataRef = some ref →
      (resolveUserDataRefs env ref).err = none →
      ClientCall.create
          (env.createFromDevice
            { setReadyCondition d Condition.creating with
                spec.forProvider.userData := some (resolveUserDataRefs env ref).userdata }
            (env.clientGetProjectID CredentialProjectID)) ∈ (Create env d).calls) := by
  refine ⟨create_dev_spec env d, ?_⟩
  intro ref href hr
  simp only [Create, setReadyCondition, href, hr]
  exact createBody_create_mem env _ _ _

/-- An environment whose ConfigMap store holds a `cloud-init` entry. -/
def envUserData : Env :=
  { baseEnv with
    kubeGetConfigMap := fun _ => ([("cloud-init", "my-user-data")], none) }

/-- A Device referring to an existing ConfigMap for its user-data. -/
def devCMRef : Device :=
  ⟨"dev-1", ⟨⟨none, none, some ⟨"my-userdata", "default", "ConfigMap", "", false⟩, []⟩⟩,
    ⟨⟨"", "", []⟩, none⟩⟩

/-- C9 witness: concrete evaluation on a resolvable ConfigMap
reference. -/
theorem create_preserves_spec_witness :
    (Create envUserData devCMRef).dev.spec.forProvider = devCMRef.spec.forProvider ∧
    ClientCall.create
        (envUserData.createFromDevice
          { setReadyCondition devCMRef Condition.creating with
              spec.forProvider.userData :=
                some (resolveUserDataRefs envUserData
                  ⟨"my-userdata", "default", "ConfigMap", "", false⟩).userdata }
          (envUserData.clientGetProjectID CredentialProjectID)) ∈
      (Create envUserData devCMRef).calls :=
  ⟨(create_preserves_spec envUserData devCMRef (by decide)).1,
    (create_preserves_spec envUserData devCMRef (by decide)).2
      ⟨"my-userdata", "default", "ConfigMap", "", false⟩ (by decide) (by decide)⟩

/-- C10: For every Device with a non-nil UserDataRef, if
`resolveUserDataRefs` returns an error then Create returns that error
without calling the provider client's Create, and the Device's external
name and `Status.AtProvider.ID` are not set. -/
theorem create_resolve_error_aborts (env : Env) (d : Device) (ref : UserDataRef)
    (e : GoError)
    (h : d.spec.forProvider.userDataRef = some ref)
    (he : (resolveUserDataRefs env ref).err = some e) :
    (Create env d).err = some e ∧
    (∀ req, ClientCall.create req ∉ (Create env d).calls) ∧
    (Create env d).dev.externalName = d.externalName ∧
    (Create env d).dev.status.atProvider.id = d.status.atProvider.id := by
  rw [create_err_resolve env d ref e h he]
  exact ⟨rfl, fun req => resolve_no_create_call env ref req, rfl, rfl⟩

/-- C10 witness: concrete evaluation on a ConfigMap reference whose key is
missing (`baseEnv` serves an empty ConfigMap), so resolution fails. -/
theorem create_resolve_error_aborts_witness :
    (Create baseEnv devCMRef).err =
      some (GoError.wrap (errRefKeyNotFound "cloud-init")
        (GoError.new errGetUserDataRef)) ∧
    ClientCall.create (baseEnv.createFromDevice devCMRef "proj-1") ∉
      (Create baseEnv devCMRef).calls ∧
    (Create baseEnv devCMRef).dev.externalName = devCMRef.externalName :=
  ⟨(create_resolve_error_aborts baseEnv devCMRef
      ⟨"my-userdata", "default", "ConfigMap", "", false⟩
      (GoError.wrap (errRefKeyNotFound "cloud-init") (GoError.new errGetUserDataRef))
      (by decide) (by decide)).1,
    (create_resolve_error_aborts baseEnv devCMRef
      ⟨"my-userdata", "default", "ConfigMap", "", false⟩
      (GoError.wrap (errRefKeyNotFound "cloud-init") (GoError.new errGetUserDataRef))
      (by decide) (by decide)).2.1 (baseEnv.createFromDevice devCMRef "proj-1"),
    (create_resolve_error_aborts baseEnv devCMRef
      ⟨"my-userdata", "default", "ConfigMap", "", false⟩
      (GoError.wrap (errRefKeyNotFound "cloud-init") (GoError.new errGetUserDataRef))
      (by decide) (by decide)).2.2.1⟩

/-! ## Error-wrapping claims -/

/-- The package-level error string constants of `package device`
(managed.go lines 45–55). -/
def staticErrStrings : List String :=
  [errManagedUpdateFailed, errTrackPCUsage, errGetProviderConfigSecret,
    errGenObservation, errNewClient, errNotDevice, errGetDevice,
    errCreateDevice, errUpdateDevice, errDeleteDevice]

/-- An error carrying, as its outermost context, one of the package-level
static string constants — either a wrap with such a message or a bare
`errors.New` of one. -/
def staticallyWrapped : GoError → Bool
  | GoError.new m => staticErrStrings.contains m
  | GoError.wrap m _ => staticErrStrings.contains m
  | GoError.notFound => false

/-- The shape of every error produced by `resolveUserDataRefs`: a wrap
whose context is one of the function-local strings or the dynamically
formatted missing-key message. -/
def resolveUserDataErrForm : GoError → Prop
  | GoError.wrap m _ =>
      m = errGetUserDataRef ∨ m = errInvalidRefKind ∨ ∃ k, m = errRefKeyNotFound k
  | _ => False

lemma sw_new_of_mem (s : String) (h : staticErrStrings.contains s = true) :
    staticallyWrapped (GoError.new s) = true := h

lemma sw_wrap_of_mem (s : String) (c : GoError) (h : staticErrStrings.contains s = true) :
    staticallyWrapped (GoError.wrap s c) = true := h

lemma errorsWrap_some (o : Option GoError) (s : String) (e : GoError)
    (h : errorsWrap o s = some e) : ∃ c, e = GoError.wrap s c := by
  cases o with
  | none => exact absurd h (by simp [errorsWrap])
  | some c =>
    simp only [errorsWrap, Option.some.injEq] at h
    exact ⟨c, h.symm⟩

lemma observeFound_err_form (env : Env) (d0 : Device) (device : PackngoDevice)
    (e : GoError) (h : (observeFound env d0 device).err = some e) :
    (∃ c, e = GoError.wrap errManagedUpdateFailed c) ∨
    (∃ c, e = GoError.wrap errGenObservation c) := by
  rcases hk : kubeDriftErr env d0 device with _ | e1
  · rcases hb : env.generateObservation device with ⟨obs, oerr⟩
    cases oerr with
    | some e2 =>
      simp only [observeFound, hk, hb, Option.some.injEq] at h
      exact Or.inr ⟨e2, h.symm⟩
    | none =>
      simp only [observeFound, hk, hb] at h
      exact absurd h (by simp)
  · simp only [observeFound, hk, Option.some.injEq] at h
    exact Or.inl ⟨e1, h.symm⟩

lemma observe_err_form (env : Env) (d : Device) (e : GoError)
    (h : (Observe env d).err = some e) :
    (∃ c, e = GoError.wrap errGetDevice c) ∨
    (∃ c, e = GoError.wrap errManagedUpdateFailed c) ∨
    (∃ c, e = GoError.wrap errGenObservation c) := by
  rcases hg : (env.clientGet d.externalName).2 with _ | e0
  · rw [observe_found_eq env d hg] at h
    exact Or.inr (observeFound_err_form env d _ e h)
  · by_cases hnf : e0 = GoError.notFound
    · subst hnf
      rw [observe_notFound_eq env d (by rw [hg]; rfl)] at h
      exact absurd h (by simp)
    · rw [observe_err_some_of_getErr env d e0 hg hnf] at h
      simp only [Option.some.injEq] at h
      exact Or.inl ⟨e0, h.symm⟩

lemma createBody_err_form (env : Env) (d1 cd : Device) (tr : List ClientCall)
    (e : GoError) (h : (createBody env d1 cd tr).err = some e) :
    (∃ c, e = GoError.wrap errCreateDevice c) ∨
    (∃ c, e = GoError.wrap errManagedUpdateFailed c) := by
  rcases hc : env.clientCreate
      (env.createFromDevice cd (env.clientGetProjectID CredentialProjectID)) with ⟨device, cerr⟩
  cases cerr with
  | some e2 =>
    simp only [createBody, hc, Option.some.injEq] at h
    exact Or.inl ⟨e2, h.symm⟩
  | none =>
    simp only [createBody, hc] at h
    split at h
    · simp only [Option.some.injEq] at h
      exact Or.inr ⟨_, h.symm⟩
    · exact absurd h (by simp)

lemma create_err_form (env : Env) (d : Device) (e : GoError)
    (h : (Create env d).err = some e) :
    (∃ ref, d.spec.forProvider.userDataRef = some ref ∧
      (resolveUserDataRefs env ref).err = some e) ∨
    (∃ c, e = GoError.wrap errCreateDevice c) ∨
    (∃ c, e = GoError.wrap errManagedUpdateFailed c) := by
  rcases href : d.spec.forProvider.userDataRef with _ | ref
  · simp only [Create, setReadyCondition, href] at h
    exact Or.inr (createBody_err_form env _ _ _ e h)
  · simp only [Create, setReadyCondition, href] at h
    rcases hr : (resolveUserDataRefs env ref).err with _ | e2
    · simp only [hr] at h
      exact Or.inr (createBody_err_form env _ _ _ e h)
    · simp only [hr, Option.some.injEq] at h
      exact Or.inl ⟨ref, rfl, by rw [hr, h]⟩

lemma resolve_err_form (env : Env) (ref : UserDataRef) (e : GoError)
    (h : (resolveUserDataRefs env ref).err = some e) :
    resolveUserDataErrForm e := by
  by_cases h1 : ref.kind = "ConfigMap"
  · rcases hcm : env.kubeGetConfigMap ⟨ref.name, ref.nspace⟩ with ⟨data, kerr⟩
    simp only [resolveUserDataRefs] at h
    rw [if_pos h1] at h
    simp only [hcm] at h
    split at h
    · cases kerr with
      | none => exact absurd h (by simp [errorsWrap])
      | some ek =>
        simp only [errorsWrap, Option.some.injEq] at h
        rw [← h]
        exact Or.inl rfl
    · split at h
      · exact absurd h (by simp)
      · split at h
        · simp only [Option.some.injEq] at h
          rw [← h]
          exact Or.inr (Or.inr ⟨_, rfl⟩)
        · exact absurd h (by simp)
  · by_cases h2 : ref.kind = "Secret"
    · rcases hcs : env.kubeGetSecret ⟨ref.name, ref.nspace⟩ with ⟨data, kerr⟩
      simp only [resolveUserDataRefs] at h
      rw [if_neg h1, if_pos h2] at h
      simp only [hcs] at h
      split at h
      · cases kerr with
        | none => exact absurd h (by simp [errorsWrap])
        | some ek =>
          simp only [errorsWrap, Option.some.injEq] at h
          rw [← h]
          exact Or.inl rfl
      · split at h
        · exact absurd h (by simp)
        · split at h
          · simp only [Option.some.injEq] at h
            rw [← h]
            exact Or.inr (Or.inr ⟨_, rfl⟩)
          · exact absurd h (by simp)
    · simp only [resolveUserDataRefs] at h
      rw [if_neg h1, if_neg h2] at h
      simp only [Option.some.injEq] at h
      rw [← h]
      exact Or.inr (Or.inl rfl)

lemma update_err_form (env : Env) (d : Device) (e : GoError)
    (h : (Update env d).err = some e) :
    (∃ c, e = GoError.wrap errGetDevice c) ∨
    (∃ c, e = GoError.wrap errUpdateDevice c) := by
  rcases hp : env.clientGet d.externalName with ⟨device, err⟩
  cases err with
  | some e0 =>
    simp only [Update, hp, Option.some.injEq] at h
    exact Or.inl ⟨e0, h.symm⟩
  | none =>
    simp only [Update, hp] at h
    split at h
    · exact Or.inr (errorsWrap_some _ _ _ h)
    · exact Or.inr (errorsWrap_some _ _ _ h)

lemma delete_err_form (env : Env) (d : Device) (e : GoError)
    (h : (Delete env d).err = some e) :
    ∃ c, e = GoError.wrap errDeleteDevice c :=
  errorsWrap_some _ _ _ h

lemma connect_err_form (env : Env) (m : Managed) (e : GoError)
    (h : Connect env m = some e) :
    e = GoError.new errNotDevice ∨
    (∃ c, e = GoError.wrap errTrackPCUsage c) ∨
    (∃ c, e = GoError.wrap errGetProviderConfigSecret c) ∨
    (∃ c, e = GoError.wrap errNewClient c) := by
  cases m with
  | notDevice =>
    simp only [Connect, Option.some.injEq] at h
    exact Or.inl h.symm
  | device d0 =>
    rcases ht : env.trackErr with _ | e1
    · rcases ha : env.getAuthInfoErr with _ | e2
      · simp only [Connect, ht, ha] at h
        exact Or.inr (Or.inr (Or.inr (errorsWrap_some _ _ _ h)))
      · simp only [Connect, ht, ha, Option.some.injEq] at h
        exact Or.inr (Or.inr (Or.inl ⟨e2, h.symm⟩))
    · simp only [Connect, ht, Option.some.injEq] at h
      exact Or.inr (Or.inl ⟨e1, h.symm⟩)

/-- C6 counterexample: with a ConfigMap user-data reference whose key is
absent, Create returns an error whose outermost context is the dynamically
formatted message naming the missing key — not one of the static
string constants of the package. -/
theorem error_wrap_counterexample :
    (Create baseEnv devCMRef).err =
      some (GoError.wrap (errRefKeyNotFound "cloud-init")
        (GoError.new errGetUserDataRef)) ∧
    staticallyWrapped
      (GoError.wrap (errRefKeyNotFound "cloud-init")
        (GoError.new errGetUserDataRef)) = false := by decide

/-- C6 amended: every non-nil error returned by Connect, Observe, Update
or Delete carries one of the package-level static string constants as its
context; errors returned by Create either do so as well, or come verbatim
from `resolveUserDataRefs`, whose errors are wrapped with the
function-local static strings (`cannot get required resource for
UserDataRef`, `invalid resource kind`) or with the dynamically formatted
message naming the missing user-data key. -/
theorem error_wrap_amended (env : Env) (m : Managed) (d : Device) :
    (∀ e, Connect env m = some e → staticallyWrapped e = true) ∧
    (∀ e, (Observe env d).err = some e → staticallyWrapped e = true) ∧
    (∀ e, (Create env d).err = some e →
      staticallyWrapped e = true ∨ resolveUserDataErrForm e) ∧
    (∀ e, (Update env d).err = some e → staticallyWrapped e = true) ∧
    (∀ e, (Delete env d).err = some e → staticallyWrapped e = true) := by
  refine ⟨?_, ?_, ?_, ?_, ?_⟩
  · intro e h
    rcases connect_err_form env m e h with hc | ⟨c, hc⟩ | ⟨c, hc⟩ | ⟨c, hc⟩ <;> rw [hc]
    · exact sw_new_of_mem _ (by decide)
    all_goals exact sw_wrap_of_mem _ _ (by decide)
  · intro e h
    rcases observe_err_form env d e h with ⟨c, hc⟩ | ⟨c, hc⟩ | ⟨c, hc⟩ <;> rw [hc] <;>
      exact sw_wrap_of_mem _ _ (by decide)
  · intro e h
    rcases create_err_form env d e h with ⟨ref, _, hre⟩ | ⟨c, hc⟩ | ⟨c, hc⟩
    · exact Or.inr (resolve_err_form env ref e hre)
    · exact Or.inl (by rw [hc]; exact sw_wrap_of_mem _ _ (by decide))
    · exact Or.inl (by rw [hc]; exact sw_wrap_of_mem _ _ (by decide))
  · intro e h
    rcases update_err_form env d e h with ⟨c, hc⟩ | ⟨c, hc⟩ <;> rw [hc] <;>
      exact sw_wrap_of_mem _ _ (by decide)
  · intro e h
    rcases delete_err_form env d e h with ⟨c, hc⟩
    rw [hc]
    exact sw_wrap_of_mem _ _ (by decide)

/-- C6 amended witness: the Connect and Create conjuncts evaluated on
concrete inputs. -/
theorem error_wrap_amended_witness :
    staticallyWrapped (GoError.new errNotDevice) = true ∧
    (staticallyWrapped
        (GoError.wrap (errRefKeyNotFound "cloud-init")
          (GoError.new errGetUserDataRef)) = true ∨
      resolveUserDataErrForm
        (GoError.wrap (errRefKeyNotFound "cloud-init")
          (GoError.new errGetUserDataRef))) :=
  ⟨(error_wrap_amended baseEnv Managed.notDevice dev0).1
      (GoError.new errNotDevice) rfl,
    (error_wrap_amended baseEnv Managed.notDevice devCMRef).2.2.1
      (GoError.wrap (errRefKeyNotFound "cloud-init") (GoError.new errGetUserDataRef))
      (by decide)⟩

/-! ## The spot-market mock client (`package fake`)

The mock is a record of function pointers; each interface method is meant
to delegate to the corresponding pointer.  The field `MockCreate` is
declared with TWO parameters (`createRequest`, `projectID`), yet the
method `Create` — which itself takes only `createRequest` — invokes
`c.MockCreate(createRequest)` with a single argument.  Go rejects that
call (`not enough arguments in call to c.MockCreate`), so the `Create`
method has no well-typed embedding; the four remaining methods are
embedded and shown to be pure delegates. -/

/-- `packngo.SpotMarketRequestCreateRequest` (opaque payload). -/
structure SpotMarketRequestCreateRequest where
  payload : String
deriving DecidableEq, Repr

/-- `packngo.SpotMarketRequest` (opaque payload). -/
structure SpotMarketRequest where
  id : String
deriving DecidableEq, Repr

/-- `packngo.Response` (opaque payload). -/
structure Response where
  statusCode : Int
deriving DecidableEq, Repr

/-- `packngo.GetOptions` (opaque payload). -/
structure GetOptions where
  includes : List String
deriving DecidableEq, Repr

/-- The `MockClient` struct with its function-pointer fields exactly as
declared; note the two-parameter type of `MockCreate`. -/
structure MockClient where
  MockCreate : Option SpotMarketRequestCreateRequest → String →
    Option SpotMarketRequest × Option Response × Option GoError
  MockDelete : String → Option Response × Option GoError
  MockGet : String → Option GetOptions →
    Option SpotMarketRequest × Option Response × Option GoError
  MockGetProjectID : String → String
  MockGetFacilityID : String → String

/-- `MockClient.Delete`. -/
def MockClient.Delete (c : MockClient) (requestID : String) :
    Option Response × Option GoError :=
  c.MockDelete requestID

/-- `MockClient.Get`. -/
def MockClient.Get (c : MockClient) (requestID : String) (options : Option GetOptions) :
    Option SpotMarketRequest × Option Response × Option GoError :=
  c.MockGet requestID options

/-- `MockClient.GetFacilityID`. -/
def MockClient.GetFacilityID (c : MockClient) (id : String) : String :=
  c.MockGetFacilityID id

/-- `MockClient.GetProjectID`. -/
def MockClient.GetProjectID (c : MockClient) (id : String) : String :=
  c.MockGetProjectID id

/-- The four well-typed methods of `MockClient` are pure delegates of
their stored function pointers.  (The fifth, `Create`, does not
type-check in the source: its body passes one argument to the
two-parameter `MockCreate`.) -/
theorem mockClient_delegates (c : MockClient) (requestID id : String)
    (options : Option GetOptions) :
    c.Delete requestID = c.MockDelete requestID ∧
    c.Get requestID options = c.MockGet requestID options ∧
    c.GetFacilityID id = c.MockGetFacilityID id ∧
    c.GetProjectID id = c.MockGetProjectID id :=
  ⟨rfl, rfl, rfl, rfl⟩

end StackPacket
